import Mathlib

set_option maxRecDepth 100000

/-!
Verification of the LinguaTown conversation core.

This file shallowly embeds the parts of the repository that the checked
properties concern: the client-side progress ledger (`src/lib/progress.ts`
and its later revision with an explicit difficulty parameter for topic
completion), the topic catalog and topic-selection policy
(`src/lib/topicSelection.ts`, the catalog in `src/lib/language.ts`),
the prompt assembler and turn limits (`src/lib/prompts.ts`), the
control-tag parsing of the chat route (`src/app/api/chat/route.ts`), and
the evaluation-verdict parsing of the evaluation route.

JavaScript strings are modelled by Lean `String`; the handful of
JavaScript string operations used by the code (`startsWith`, `trim`,
single-occurrence `replace`, `toUpperCase`, the anchored regex
`/^CORRECTION:\s*/i`) are modelled by explicit functions on the
underlying character lists.  `String.prototype.trim` and `\s` strip the
full Unicode whitespace class; the model covers the ASCII whitespace
characters, which is the only part the properties exercise.
`toUpperCase` is modelled with `Char.toUpper` (ASCII case folding).

The browser `localStorage` state is modelled by passing the stored
`UserProgress` record explicitly: a mutating API route becomes a
function from the stored record to the new stored record.  The
server-side guard (`typeof window === "undefined"`) short-circuits those
functions in the browser-less case and is outside the modelled client
behaviour.  `Math.floor(Math.random() * n)` produces an arbitrary index
below `n`; it is modelled by `r % n` for an arbitrary `r : Nat`.
-/

/-- ASCII part of the JavaScript whitespace class used by `trim` and `\s`. -/
def isJsWhitespace (c : Char) : Bool :=
  c == ' ' || c == '\t' || c == '\n' || c == '\r' || c == '\x0b' || c == '\x0c'

/-- Characters of a string after `String.prototype.trim`: drop the leading
whitespace run, then the trailing whitespace run. -/
def trimChars (l : List Char) : List Char :=
  (((l.dropWhile isJsWhitespace).reverse.dropWhile isJsWhitespace)).reverse

/-- Model of `s.trim()`. -/
def jsTrim (s : String) : String :=
  String.mk (trimChars s.data)

/-- Model of `s.startsWith(p)`. -/
def strStartsWith (s p : String) : Bool :=
  List.isPrefixOf p.data s.data

/-- Model of `s.slice(n)` / dropping the first `n` characters. -/
def strDrop (s : String) (n : Nat) : String :=
  String.mk (s.data.drop n)

/-- Model of `s.toUpperCase()` (ASCII case folding). -/
def jsToUpper (s : String) : String :=
  String.mk (s.data.map Char.toUpper)

/-- Replace the first occurrence of `pat` by `rep`, on character lists:
the behaviour of JavaScript `String.prototype.replace` with a string
pattern. -/
def replaceFirstAux (pat rep : List Char) : List Char → List Char
  | [] => if List.isPrefixOf pat [] then rep ++ List.drop pat.length [] else []
  | c :: cs =>
    if List.isPrefixOf pat (c :: cs) then rep ++ List.drop pat.length (c :: cs)
    else c :: replaceFirstAux pat rep cs

/-- Model of `s.replace(pat, rep)` with a plain-string pattern (JavaScript
replaces only the first occurrence). -/
def jsReplaceFirst (s pat rep : String) : String :=
  String.mk (replaceFirstAux pat.data rep.data s.data)

/-- Does `pat` occur as a contiguous substring of `s` (character lists)? -/
def occursInL (pat : List Char) : List Char → Bool
  | [] => List.isPrefixOf pat []
  | c :: cs => List.isPrefixOf pat (c :: cs) || occursInL pat cs

/-- Model of `s.includes(pat)`: substring occurrence. -/
def containsSubstr (s pat : String) : Bool :=
  occursInL pat.data s.data

/-! ## Progress ledger (`src/lib/progress.ts`) -/

/-- The three ordered difficulty tiers (`DifficultyLevel` union type). -/
inductive DifficultyLevel where
  | beginner
  | intermediate
  | advanced
deriving DecidableEq, BEq, Repr

/-- `DIFFICULTY_LEVELS = ["beginner", "intermediate", "advanced"]`. -/
def DIFFICULTY_LEVELS : List DifficultyLevel :=
  [.beginner, .intermediate, .advanced]

/-- `STAGES_PER_LOCATION = 3`. -/
def STAGES_PER_LOCATION : Nat := 3

/-- `ALL_LOCATIONS` from `progress.ts`. -/
def ALL_LOCATIONS : List String :=
  ["restaurant", "bakery", "school", "bank", "hotel", "grocery-store"]

/-- `LocationDifficultyProgress`: per-location, per-tier completion state. -/
structure LocationDifficultyProgress where
  completedStages : Nat
  completedAt : List String
  completedTopics : List String
deriving DecidableEq, Repr

/-- The `{ completedStages: 0, completedAt: [], completedTopics: [] }`
initializer used when a location record is missing. -/
def initLocationProgress : LocationDifficultyProgress :=
  { completedStages := 0, completedAt := [], completedTopics := [] }

/-- `UserProgress`: the stored root record.  The JavaScript objects
`difficulties` (keyed by tier) and each `DifficultyProgress` (keyed by
location slug) are modelled as partial maps; a key that was never
assigned maps to `none`. -/
structure UserProgress where
  globalLevel : DifficultyLevel
  difficulties : DifficultyLevel → Option (String → Option LocationDifficultyProgress)

/-- `getDefaultProgress()`. -/
def getDefaultProgress : UserProgress :=
  { globalLevel := .beginner, difficulties := fun _ => none }

/-- The record stored for a (tier, location) pair, `none` when absent
(`progress.difficulties[lvl]?.[loc]`). -/
def locationRecord (p : UserProgress) (lvl : DifficultyLevel) (loc : String) :
    Option LocationDifficultyProgress :=
  (p.difficulties lvl).bind fun dp => dp loc

/-- `getLocationStages` generalized over the tier:
`difficultyProgress?.[locationSlug]?.completedStages ?? 0`. -/
def stagesAt (p : UserProgress) (lvl : DifficultyLevel) (loc : String) : Nat :=
  ((locationRecord p lvl loc).map (fun lp => lp.completedStages)).getD 0

/-- `getCompletedTopics(locationSlug)` (current-tier version used by
`topicSelection.ts`): `difficultyProgress?.[locationSlug]?.completedTopics ?? []`. -/
def getCompletedTopics (p : UserProgress) (locationSlug : String) : List String :=
  ((locationRecord p p.globalLevel locationSlug).map (fun lp => lp.completedTopics)).getD []

/-- The completed-topics view of an arbitrary (tier, location) pair. -/
def completedTopicsAt (p : UserProgress) (lvl : DifficultyLevel) (loc : String) :
    List String :=
  ((locationRecord p lvl loc).map (fun lp => lp.completedTopics)).getD []

/-- `getNextDifficultyLevel(current)`. -/
def getNextDifficultyLevel (current : DifficultyLevel) : Option DifficultyLevel :=
  let idx := DIFFICULTY_LEVELS.indexOf current
  if idx < DIFFICULTY_LEVELS.length - 1 then DIFFICULTY_LEVELS.get? (idx + 1)
  else none

/-- Result object of `completeConversation`. -/
structure CompletionResult where
  advanced : Bool
  newLevel : Option DifficultyLevel
deriving DecidableEq, Repr

/-- The `locationProgress` mutation inside `completeConversation`:
increment `completedStages` and push a timestamp only while below
`STAGES_PER_LOCATION`. -/
def updatedLocationProgress (lp : LocationDifficultyProgress) (now : String) :
    LocationDifficultyProgress :=
  if lp.completedStages < STAGES_PER_LOCATION then
    { lp with
      completedStages := lp.completedStages + 1
      completedAt := lp.completedAt ++ [now] }
  else lp

/-- The current tier's location map after `completeConversation`'s
initialize-and-update steps (the mutated `difficultyProgress` object). -/
def postDifficultyProgress (p : UserProgress) (locationSlug now : String) :
    String → Option LocationDifficultyProgress := fun l =>
  if l = locationSlug then
    some (updatedLocationProgress
      ((locationRecord p p.globalLevel locationSlug).getD initLocationProgress) now)
  else locationRecord p p.globalLevel l

/-- The `allComplete` check of `completeConversation`: every location in
`ALL_LOCATIONS` has a record with `completedStages >= STAGES_PER_LOCATION`. -/
def allLocationsComplete (dp : String → Option LocationDifficultyProgress) : Bool :=
  ALL_LOCATIONS.all fun loc =>
    match dp loc with
    | some lp => decide (STAGES_PER_LOCATION ≤ lp.completedStages)
    | none => false

/-- The `difficulties` map of the record written by `saveProgress` inside
`completeConversation`: the current tier now maps to the updated location
map, every other tier keeps its entry. -/
def savedDifficulties (p : UserProgress) (locationSlug now : String) :
    DifficultyLevel → Option (String → Option LocationDifficultyProgress) := fun lvl =>
  if lvl = p.globalLevel then some (postDifficultyProgress p locationSlug now)
  else p.difficulties lvl

/-- Stage count stored in a location map, `0` when the record is absent. -/
def dpStages (dp : String → Option LocationDifficultyProgress) (loc : String) : Nat :=
  ((dp loc).map (fun lp => lp.completedStages)).getD 0

/-- `completeConversation(locationSlug)` as a transformer of the stored
progress record; `now` is the `new Date().toISOString()` timestamp. -/
def completeConversation (locationSlug now : String) (p : UserProgress) :
    UserProgress × CompletionResult :=
  if allLocationsComplete (postDifficultyProgress p locationSlug now) then
    match getNextDifficultyLevel p.globalLevel with
    | some nextLevel =>
      ({ globalLevel := nextLevel, difficulties := savedDifficulties p locationSlug now },
        { advanced := true, newLevel := some nextLevel })
    | none =>
      ({ globalLevel := p.globalLevel, difficulties := savedDifficulties p locationSlug now },
        { advanced := false, newLevel := none })
  else
    ({ globalLevel := p.globalLevel, difficulties := savedDifficulties p locationSlug now },
      { advanced := false, newLevel := none })

/-- A sequence of `completeConversation` calls, each a (location, timestamp)
pair, applied to the stored record. -/
def runCompletions (calls : List (String × String)) (p : UserProgress) : UserProgress :=
  calls.foldl (fun st c => (completeConversation c.1 c.2 st).1) p

/-- `markTopicComplete(locationSlug, difficulty, topicId)` (the revision
with an explicit difficulty parameter, `src/unnamed/part_006`): append
the topic id to the (tier, location) record if not already present.
When the id is already present the code neither pushes nor calls
`saveProgress`, so the stored record is returned unchanged. -/
def markTopicComplete (locationSlug : String) (difficulty : DifficultyLevel)
    (topicId : String) (p : UserProgress) : UserProgress :=
  if (((locationRecord p difficulty locationSlug).getD
        initLocationProgress).completedTopics).contains topicId then p
  else
    { p with
      difficulties := fun lvl =>
        if lvl = difficulty then
          some (fun l =>
            if l = locationSlug then
              some { (locationRecord p difficulty locationSlug).getD initLocationProgress with
                completedTopics :=
                  ((locationRecord p difficulty locationSlug).getD
                    initLocationProgress).completedTopics ++ [topicId] }
            else locationRecord p difficulty l)
        else p.difficulties lvl }

/-- A sample stored record used to instantiate the universally quantified
theorems: beginner tier, five locations fully staged, the restaurant at
two of three stages. -/
def sampleAlmostComplete : UserProgress :=
  { globalLevel := .beginner
    difficulties := fun lvl =>
      if lvl = .beginner then
        some (fun l =>
          if l = "restaurant" then
            some { completedStages := 2, completedAt := [], completedTopics := [] }
          else if ALL_LOCATIONS.contains l then
            some { completedStages := 3, completedAt := [], completedTopics := [] }
          else none)
      else none }

/-- A sample stored record with one completed bakery topic at the beginner
tier. -/
def sampleOneTopicDone : UserProgress :=
  { globalLevel := .beginner
    difficulties := fun lvl =>
      if lvl = .beginner then
        some (fun l =>
          if l = "bakery" then
            some { completedStages := 1, completedAt := [],
                   completedTopics := ["buying-bread"] }
          else none)
      else none }

/-! ## Topic catalog and selection (`src/lib/language.ts` catalog,
`src/lib/topicSelection.ts`) -/

/-- `Topic` record. -/
structure Topic where
  id : String
  name : String
  description : String
deriving DecidableEq, Repr

/-- Topic records of the `bakery` catalog entry. -/
def bakeryTopics : DifficultyLevel → List Topic
  | .beginner => [
      { id := "buying-bread", name := "Buying Bread", description := "Purchase bread from the bakery" },
      { id := "asking-price", name := "Asking for Price", description := "Inquire about the cost of items" },
      { id := "ordering-coffee-pastry", name := "Ordering Coffee and Pastry", description := "Order a coffee and pastry combination" },
      { id := "picking-up-order", name := "Picking Up an Order", description := "Collect a pre-placed order" },
      { id := "out-of-stock-substitution", name := "Out-of-Stock Substitution", description := "Find an alternative when an item is unavailable" }
    ]
  | .intermediate => [
      { id := "party-catering", name := "Party Catering Order", description := "Order baked goods for a birthday, office party, or gathering" },
      { id := "custom-decorations", name := "Custom Decorations", description := "Discuss customization options for special occasion cakes" },
      { id := "dietary-restrictions", name := "Dietary Restrictions", description := "Find baked goods that accommodate dietary needs" },
      { id := "bulk-order", name := "Bulk Order Planning", description := "Plan a large order for an event with multiple preferences" },
      { id := "flavor-consultation", name := "Flavor Consultation", description := "Get recommendations on flavors and combinations for your event" }
    ]
  | .advanced => [
      { id := "baking-techniques", name := "Baking Techniques", description := "Discuss professional baking methods and techniques" },
      { id := "recipe-development", name := "Recipe Development", description := "Talk about creating and refining recipes" },
      { id := "ingredient-sourcing", name := "Ingredient Sourcing", description := "Discuss where to find quality ingredients and suppliers" },
      { id := "baking-mistakes", name := "Common Baking Mistakes", description := "Learn about common pitfalls and how to avoid them" },
      { id := "baking-philosophy", name := "Baking Philosophy", description := "Share perspectives on the art and science of baking" }
    ]

/-- Topic records of the `bank` catalog entry. -/
def bankTopics : DifficultyLevel → List Topic
  | .beginner => [
      { id := "opening-account", name := "Opening an Account", description := "Start a new bank account" },
      { id := "withdrawing-money", name := "Withdrawing Money", description := "Take money out from your account" },
      { id := "asking-hours", name := "Asking About Hours", description := "Find out when the bank is open" },
      { id := "help-with-card", name := "Getting Help with a Card", description := "Get assistance with your bank card" },
      { id := "exchanging-money", name := "Exchanging Money", description := "Exchange currency at the bank" }
    ]
  | .intermediate => [
      { id := "account-types", name := "Comparing Account Types", description := "Learn about different account options and their benefits" },
      { id := "savings-goals", name := "Savings Goals Planning", description := "Discuss your financial goals and savings strategies" },
      { id := "loan-inquiry", name := "Loan Inquiry", description := "Explore loan options for personal or business needs" },
      { id := "credit-building", name := "Building Credit", description := "Get advice on improving your credit score" },
      { id := "financial-planning", name := "Basic Financial Planning", description := "Plan for short-term and medium-term financial goals" }
    ]
  | .advanced => [
      { id := "investment-strategies", name := "Investment Strategies", description := "Discuss investment approaches and portfolio management" },
      { id := "retirement-planning", name := "Retirement Planning", description := "Plan for long-term retirement and financial security" },
      { id := "risk-tolerance", name := "Risk Assessment", description := "Evaluate your risk tolerance and investment preferences" },
      { id := "tax-strategies", name := "Tax Strategies", description := "Discuss tax-efficient financial planning approaches" },
      { id := "financial-philosophy", name := "Financial Philosophy", description := "Share perspectives on wealth management and financial goals" }
    ]

/-- Topic records of the `hotel` catalog entry. -/
def hotelTopics : DifficultyLevel → List Topic
  | .beginner => [
      { id := "checking-in", name := "Checking In", description := "Register and get your room key" },
      { id := "asking-wifi", name := "Asking for Wi-Fi", description := "Get the Wi-Fi password" },
      { id := "asking-towels", name := "Asking for Towels", description := "Request extra towels for your room" },
      { id := "breakfast-hours", name := "Asking About Breakfast Hours", description := "Find out when breakfast is served" },
      { id := "checking-out", name := "Checking Out", description := "Complete your stay and pay" }
    ]
  | .intermediate => [
      { id := "special-occasion", name := "Special Occasion Booking", description := "Plan a honeymoon, anniversary, or family vacation" },
      { id := "room-amenities", name := "Room Amenities", description := "Discuss room preferences and special amenities" },
      { id := "local-attractions", name := "Local Attractions", description := "Get recommendations for nearby sights and activities" },
      { id := "dining-recommendations", name := "Dining Recommendations", description := "Ask about restaurants and dining options in the area" },
      { id := "special-requests", name := "Special Requests", description := "Make arrangements for special needs or preferences" }
    ]
  | .advanced => [
      { id := "travel-tips", name := "Travel Tips", description := "Share and discuss travel tips and best practices" },
      { id := "hidden-gems", name := "Hidden Gems", description := "Discover lesser-known local attractions and experiences" },
      { id := "cultural-experiences", name := "Cultural Experiences", description := "Explore authentic cultural activities and traditions" },
      { id := "travel-stories", name := "Travel Stories", description := "Share memorable travel experiences and adventures" },
      { id := "travel-philosophy", name := "Travel Philosophy", description := "Discuss perspectives on travel and exploration" }
    ]

/-- Topic records of the `school` catalog entry. -/
def schoolTopics : DifficultyLevel → List Topic
  | .beginner => [
      { id := "where-class", name := "Asking Where a Class Is", description := "Find the location of your classroom" },
      { id := "meeting-teacher", name := "Meeting a Teacher", description := "Introduce yourself to a new teacher" },
      { id := "asking-help", name := "Asking for Help", description := "Request assistance with something" },
      { id := "borrowing-pen", name := "Borrowing a Pen", description := "Ask to borrow a writing utensil" },
      { id := "class-time", name := "Asking About Class Time", description := "Find out when a class starts or ends" }
    ]
  | .intermediate => [
      { id := "parent-teacher-meeting", name := "Parent-Teacher Meeting", description := "Discuss your child\x27s academic progress and concerns" },
      { id := "course-selection", name := "Course Selection", description := "Get advice on choosing classes and academic paths" },
      { id := "extracurriculars", name := "Extracurricular Activities", description := "Explore clubs, sports, and other activities" },
      { id := "academic-goals", name := "Academic Goals", description := "Discuss educational goals and planning" },
      { id := "learning-support", name := "Learning Support", description := "Get help with study strategies and resources" }
    ]
  | .advanced => [
      { id := "teaching-methods", name := "Teaching Methods", description := "Discuss different pedagogical approaches and their effectiveness" },
      { id := "learning-styles", name := "Learning Styles", description := "Explore how different people learn best" },
      { id := "educational-trends", name := "Educational Trends", description := "Talk about current trends and innovations in education" },
      { id := "technology-in-education", name := "Technology in Education", description := "Discuss the role of technology in the classroom" },
      { id := "educational-philosophy", name := "Educational Philosophy", description := "Share perspectives on what makes effective education" }
    ]

/-- Topic records of the `restaurant` catalog entry. -/
def restaurantTopics : DifficultyLevel → List Topic
  | .beginner => [
      { id := "ordering-food", name := "Ordering Food", description := "Place an order for a meal" },
      { id := "asking-check", name := "Asking for the Check", description := "Request the bill" },
      { id := "asking-about-dish", name := "Asking About a Dish", description := "Get information about a menu item" },
      { id := "more-water", name := "Asking for More Water", description := "Request a water refill" },
      { id := "simple-reservation", name := "Making a Simple Reservation", description := "Book a table for later" }
    ]
  | .intermediate => [
      { id := "special-occasion-dinner", name := "Special Occasion Dinner", description := "Plan a birthday dinner or anniversary meal" },
      { id := "dietary-restrictions-menu", name := "Dietary Restrictions", description := "Discuss menu options for dietary needs and allergies" },
      { id := "wine-pairing", name := "Wine Pairing", description := "Get recommendations for wine pairings with your meal" },
      { id := "chef-specials", name := "Chef\x27s Specials", description := "Learn about today\x27s specials and chef recommendations" },
      { id := "group-reservation", name := "Group Reservation", description := "Book a table for a larger party with specific needs" }
    ]
  | .advanced => [
      { id := "culinary-discussion", name := "Culinary Discussion", description := "Discuss cooking techniques, ingredients, and culinary traditions" },
      { id := "ingredient-sourcing-restaurant", name := "Ingredient Sourcing", description := "Talk about where ingredients come from and quality" },
      { id := "chef-inspiration", name := "Chef\x27s Inspiration", description := "Learn about the chef\x27s creative process and influences" },
      { id := "cooking-experiences", name := "Cooking Experiences", description := "Share your own cooking experiences and favorite cuisines" },
      { id := "food-critique", name := "Food Critique", description := "Discuss flavors, presentation, and culinary artistry" }
    ]

/-- Topic records of the `grocery-store` catalog entry. -/
def groceryStoreTopics : DifficultyLevel → List Topic
  | .beginner => [
      { id := "finding-item", name := "Finding an Item", description := "Locate a product in the store" },
      { id := "price-check", name := "Price Check", description := "Ask about the cost of an item" },
      { id := "paying-register", name := "Paying at the Register", description := "Complete your purchase" },
      { id := "item-availability", name := "Asking About Item Availability", description := "Check if something is in stock" },
      { id := "returning-item", name := "Returning an Item", description := "Return a product you purchased" }
    ]
  | .intermediate => [
      { id := "meal-planning", name := "Meal Planning", description := "Plan a dinner party or special meal with ingredient suggestions" },
      { id := "recipe-ingredients", name := "Recipe Ingredients", description := "Find all ingredients needed for a specific recipe" },
      { id := "dietary-shopping", name := "Dietary Shopping", description := "Shop for specific dietary needs or restrictions" },
      { id := "quantity-planning", name := "Quantity Planning", description := "Determine how much to buy for a group or event" },
      { id := "ingredient-substitutions", name := "Ingredient Substitutions", description := "Find alternatives when an ingredient is unavailable" }
    ]
  | .advanced => [
      { id := "culinary-techniques", name := "Culinary Techniques", description := "Discuss cooking methods and preparation techniques" },
      { id := "seasonal-produce", name := "Seasonal Produce", description := "Talk about seasonal ingredients and their best uses" },
      { id := "nutrition-discussion", name := "Nutrition Discussion", description := "Discuss nutritional value and healthy eating" },
      { id := "cooking-philosophy", name := "Cooking Philosophy", description := "Share perspectives on cooking style and food culture" },
      { id := "recipe-development-grocery", name := "Recipe Development", description := "Discuss creating and refining recipes with ingredients" }
    ]
/-- The `topics` object: location slug to per-tier topic lists; an unknown
slug has no entry. -/
def topics (locationSlug : String) : Option (DifficultyLevel → List Topic) :=
  if locationSlug = "bakery" then some bakeryTopics
  else if locationSlug = "bank" then some bankTopics
  else if locationSlug = "hotel" then some hotelTopics
  else if locationSlug = "school" then some schoolTopics
  else if locationSlug = "restaurant" then some restaurantTopics
  else if locationSlug = "grocery-store" then some groceryStoreTopics
  else none

/-- `getTopicsForLocation`: `topics[locationSlug]?.[difficulty] ?? []`. -/
def getTopicsForLocation (locationSlug : String) (difficulty : DifficultyLevel) :
    List Topic :=
  match topics locationSlug with
  | some byLevel => byLevel difficulty
  | none => []

/-- `getAllTopicIdsForLocation`. -/
def getAllTopicIdsForLocation (locationSlug : String) (difficulty : DifficultyLevel) :
    List String :=
  (getTopicsForLocation locationSlug difficulty).map (fun t => t.id)

/-- `getTopicById`: `.find(t => t.id === topicId)` (`undefined` is `none`). -/
def getTopicById (locationSlug : String) (difficulty : DifficultyLevel)
    (topicId : String) : Option Topic :=
  (getTopicsForLocation locationSlug difficulty).find? (fun t => t.id == topicId)

/-- The `availableTopicIds` local of `selectNextTopic`: catalog ids not in
the completed list of the location (looked up at the stored record's
current tier, as `getCompletedTopics` does). -/
def availableTopicIds (locationSlug : String) (difficulty : DifficultyLevel)
    (p : UserProgress) : List String :=
  (getAllTopicIdsForLocation locationSlug difficulty).filter
    (fun id => !((getCompletedTopics p locationSlug).contains id))

/-- `selectNextTopic(locationSlug, difficulty)`; `r` models the
`Math.random()` draw (`Math.floor(Math.random() * n)` becomes `r % n`). -/
def selectNextTopic (locationSlug : String) (difficulty : DifficultyLevel)
    (p : UserProgress) (r : Nat) : Option Topic :=
  if (getAllTopicIdsForLocation locationSlug difficulty).length = 0 then none
  else
    getTopicById locationSlug difficulty
      (if 0 < (availableTopicIds locationSlug difficulty p).length then
        (availableTopicIds locationSlug difficulty p).getD
          (r % (availableTopicIds locationSlug difficulty p).length) ""
      else
        (getAllTopicIdsForLocation locationSlug difficulty).getD
          (r % (getAllTopicIdsForLocation locationSlug difficulty).length) "")

/-! ## Prompt assembler and turn limits (`src/lib/prompts.ts`) -/

/-- Turn-limit pair returned by `getTurnLimits`. -/
structure TurnLimits where
  min : Nat
  max : Nat
deriving DecidableEq, Repr

/-- `getTurnLimits(difficulty)`. -/
def getTurnLimits : DifficultyLevel → TurnLimits
  | .beginner => { min := 2, max := 3 }
  | .intermediate => { min := 3, max := 4 }
  | .advanced => { min := 3, max := 5 }

/-- `getLanguageName(languageCode)`: table lookup with the code itself as
fallback. -/
def getLanguageName (languageCode : String) : String :=
  if languageCode = "en" then "English"
  else if languageCode = "it" then "Italian"
  else if languageCode = "es" then "Spanish"
  else if languageCode = "fr" then "French"
  else if languageCode = "de" then "German"
  else languageCode

/-- Scenario strings of the `"Restaurant"` entry of `locationScenarios`. -/
def restaurantScenarios : DifficultyLevel → String
  | .beginner =>
    "SCENARIO: Simple ordering\n- Help them order a meal (drink, main course, maybe dessert)\n- Ask simple questions: \"What would you like?\" \"Anything to drink?\"\n- Keep it to basic menu items or simple choice questions"
  | .intermediate =>
    "SCENARIO: Special occasion dinner\n- They\x27re planning a birthday dinner or anniversary meal\n- Ask about the occasion, dietary restrictions, preferences\n- Discuss recommendations, specials, wine pairings\n- Encourage them to describe what they\x27re celebrating and who\x27s coming"
  | .advanced =>
    "SCENARIO: Food critic or culinary discussion\n- Treat them as a food enthusiast \n- Discuss ingredient sourcing, chef\x27s inspiration\n- Ask about their own cooking experiences and favorite cuisines\n- Encourage them to share opinions and detailed preferences"

/-- Scenario strings of the `"Bakery"` entry of `locationScenarios`. -/
def bakeryScenarios : DifficultyLevel → String
  | .beginner =>
    "SCENARIO: Simple purchase\n- Help them choose what to buy including how many of various items.\n- Create realistic scenarios such as an item being out of stock or needing to wait for it to be done baking\n- Ask basic questions: \"What can I get you?\" \"For here or to go?\"\n- Suggest popular items, handle straightforward transactions"
  | .intermediate =>
    "SCENARIO: Party catering order\n- They need baked goods for an event (birthday, office party, gathering)\n- Ask about the occasion, number of guests, preferences\n- Discuss customization options (flavors, decorations, dietary needs)\n- Encourage them to describe the party and what would make it special"
  | .advanced =>
    "SCENARIO: Baking class or technique discussion\n- They\x27re interested in learning to bake or discussing techniques\n- Talk about recipes, methods, common mistakes, pro tips\n- Ask about their baking experience and what they want to learn\n- Encourage them to share their baking attempts and questions"

/-- Scenario strings of the `"School"` entry of `locationScenarios`. -/
def schoolScenarios : DifficultyLevel → String
  | .beginner =>
    "SCENARIO: New student orientation\n- Help them find their classroom or understand the schedule\n- Ask simple questions about what class they\x27re looking for\n- Give basic directions and information"
  | .intermediate =>
    "SCENARIO: Parent-teacher meeting or course selection\n- Discuss academic progress, extracurriculars, or choosing classes\n- Ask about interests, goals, concerns\n- Encourage them to describe their child\x27s interests or their own academic goals"
  | .advanced =>
    "SCENARIO: Discuss how much technology should be used in the classroom\n- Discuss teaching methods, learning styles, educational trends\n- Ask about their experiences with different approaches to learning\n- Encourage them to share their views on education and what works for them"

/-- Scenario strings of the `"Bank"` entry of `locationScenarios`. -/
def bankScenarios : DifficultyLevel → String
  | .beginner =>
    "SCENARIO: Basic banking transaction\n- Help with simple tasks: checking balance, making a deposit, getting cash\n- Ask straightforward questions about what they need\n- Keep it to routine banking services"
  | .intermediate =>
    "SCENARIO: Opening an account or loan inquiry\n- Discuss different account types, savings goals, or loan options\n- Ask about their financial goals and situation\n- Encourage them to describe what they\x27re saving for or planning"
  | .advanced =>
    "SCENARIO: Investment or financial planning discussion\n- Discuss investment strategies, retirement planning, financial goals\n- Ask about their risk tolerance, timeline, existing portfolio\n- Encourage them to share their financial philosophy and long-term plans"

/-- Scenario strings of the `"Hotel"` entry of `locationScenarios`. -/
def hotelScenarios : DifficultyLevel → String
  | .beginner =>
    "SCENARIO: Simple check-in\n- Help them check into their room\n- Ask basic questions: name, reservation, room preference\n- Provide key information about the stay"
  | .intermediate =>
    "SCENARIO: Planning a special trip\n- They\x27re booking for a honeymoon, anniversary, or family vacation\n- Ask about the occasion, preferences, special requests\n- Discuss amenities, local attractions, dining options\n- Encourage them to describe their ideal trip and what they want to experience"
  | .advanced =>
    "SCENARIO: Travel expert\n- Treat them as an experienced traveler\n- Discuss travel tips, hidden gems, cultural experiences\n- Ask about their most memorable trips and travel philosophy\n- Encourage them to share stories and recommendations"

/-- Scenario strings of the `"Grocery Store"` entry of `locationScenarios`. -/
def groceryStoreScenarios : DifficultyLevel → String
  | .beginner =>
    "SCENARIO: Finding items\n- Help them locate products in the store\n- Ask simple questions about what they\x27re looking for\n- Give basic directions and suggestions"
  | .intermediate =>
    "SCENARIO: Meal planning assistance\n- They\x27re shopping for a dinner party or special meal\n- Ask about the menu, number of guests, dietary restrictions\n- Suggest ingredients, quantities, alternatives\n- Encourage them to describe what they\x27re cooking and for whom"
  | .advanced =>
    "SCENARIO: Culinary or nutrition discussion\n- Discuss ingredients, seasonal produce, cooking techniques\n- Ask about their cooking style and dietary philosophy\n- Encourage them to share recipes, nutrition goals, food experiences"

/-- `locationScenarios`: display-name key to per-tier scenario text. -/
def locationScenarios (location : String) : Option (DifficultyLevel → String) :=
  if location = "Restaurant" then some restaurantScenarios
  else if location = "Bakery" then some bakeryScenarios
  else if location = "School" then some schoolScenarios
  else if location = "Bank" then some bankScenarios
  else if location = "Hotel" then some hotelScenarios
  else if location = "Grocery Store" then some groceryStoreScenarios
  else none

/-- `getDifficultyGuidelines(difficulty)`. -/
def getDifficultyGuidelines : DifficultyLevel → String
  | .beginner =>
    "CONVERSATION STYLE:\n- Use simple, clear language\n- Offer variety between direct questions, and offering information and letting the user direct the conversation.\n- If asking a question, only ask one. Do not include multiple questions in one turn.\n- Keep your responses short (1 sentence)\n- Focus on the immediate task\n- Be patient and encouraging"
  | .intermediate =>
    "CONVERSATION STYLE:\n- Use natural, conversational language. Keep your dialogue short.\n- Ask open-ended questions that invite descriptions\n- If asking a question, only ask one. Do not include multiple questions in one turn.\n- Encourage them to explain their preferences and reasons\n- Show interest in details they share\n- Build on their responses to go deeper"
  | .advanced =>
    "CONVERSATION STYLE:\n- Engage as equals having a genuine conversation. Keep your dialogue short.\n- Ask thought-provoking questions about their experiences\n- If asking a question, only ask one. Do not include multiple questions in one turn.\n- Invite them to share stories, opinions, and expertise\n- Respond to their ideas with your own insights\n- Create a back-and-forth discussion, not just Q&A"
/-- `getScenarioPrompt(location, difficulty)` with its generic fallback. -/
def getScenarioPrompt (location : String) (difficulty : DifficultyLevel) : String :=
  match locationScenarios location with
  | some scenarios => scenarios difficulty
  | none =>
    match difficulty with
    | .beginner => "SCENARIO: Simple transaction or request"
    | .intermediate => "SCENARIO: More detailed planning or discussion"
    | .advanced => "SCENARIO: Expert-level discussion sharing experiences"

/-- `BuildPromptParams` (the optional language fields default to `"en"` at
the call site; they are plain fields here). -/
structure BuildPromptParams where
  characterName : String
  role : String
  location : String
  difficulty : DifficultyLevel
  topic : Option Topic
  turnCount : Nat
  canEnd : Bool
  mustEnd : Bool
  nativeLanguage : String
  learningLanguage : String

/-- The `languageInstruction` local of `buildSystemPrompt`. -/
def languageInstruction (nativeLanguage learningLanguage : String) : String :=
  if learningLanguage ≠ "en" then
    "\nLANGUAGE REQUIREMENT:\nYou must respond ONLY in " ++ getLanguageName learningLanguage
      ++ ". The user\x27s native language is " ++ getLanguageName nativeLanguage
      ++ ", but you should conduct this entire conversation in "
      ++ getLanguageName learningLanguage ++ ". Do not switch to "
      ++ getLanguageName nativeLanguage ++ " or any other language."
  else ""

/-- The `topicPrompt` local of `buildSystemPrompt`. -/
def topicPrompt (params : BuildPromptParams) : String :=
  match params.topic with
  | some topic =>
    "CONVERSATION TOPIC: " ++ topic.name ++ "\n" ++ topic.description
      ++ "\n\nYou should initiate this conversation naturally. Start by greeting the user and then guide the conversation toward this topic. Make it feel natural and contextual to your role as a "
      ++ params.role ++ " at the " ++ params.location ++ "."
  | none => getScenarioPrompt params.location params.difficulty

/-- The `closingGuidance` ternary of the `mustEnd` branch. -/
def closingGuidance : DifficultyLevel → String
  | .beginner =>
    "⚠️ CRITICAL: This is the FINAL message of the conversation. You MUST:\n1. Wrap up the conversation naturally\n2. Do NOT ask any questions - this is a closing statement, not a question\n3. Do NOT include any hints"
  | .intermediate =>
    "Thank them warmly and reference something specific from the conversation. Keep it brief (1-2 sentences)."
  | .advanced =>
    "Thank them warmly and reference something meaningful from your discussion. You can be slightly more elaborate (2-3 sentences) given the depth of conversation."

/-- The `endGuidance` ternary of the `canEnd` branch. -/
def endGuidance : DifficultyLevel → String
  | .beginner =>
    "The user will respond after your message. You can choose to continue the conversation or signal that it\x27s coming to an end. If the conversation feels complete, you can use [END] to indicate that. Keep responses brief and friendly."
  | .intermediate =>
    "Based on how the conversation has flowed, decide whether to continue or wrap up naturally."
  | .advanced =>
    "You can continue exploring this topic."

/-- `buildSystemPrompt(params)`: the three mutually exclusive templates
selected by `(canEnd, mustEnd)`.  Template literals become explicit
concatenations at the interpolation points. -/
def buildSystemPrompt (params : BuildPromptParams) : String :=
  if params.mustEnd then
    "You are " ++ params.characterName ++ ", a friendly " ++ params.role
      ++ " at the " ++ params.location ++ ".\n"
      ++ languageInstruction params.nativeLanguage params.learningLanguage ++ "\n"
      ++ "\n\u26a0\ufe0f THIS IS THE END OF THE CONVERSATION - FINAL MESSAGE REQUIRED \u26a0\ufe0f\n"
      ++ closingGuidance params.difficulty
      ++ "\n\nCRITICAL RULES FOR THIS FINAL MESSAGE:\n- Do NOT ask any questions\n- Do NOT include hints\n- Do NOT use [CONTINUE] or [END] tags\n- Simply provide a warm closing statement\n\nRespond with ONLY your closing message."
  else if params.canEnd then
    "You are " ++ params.characterName ++ ", a friendly " ++ params.role
      ++ " at the " ++ params.location ++ ".\n"
      ++ languageInstruction params.nativeLanguage params.learningLanguage ++ "\n\n"
      ++ topicPrompt params ++ "\n\n" ++ getDifficultyGuidelines params.difficulty ++ "\n\n"
      ++ endGuidance params.difficulty
      ++ "\n\nRESPONSE FORMAT:\nStart your response with [CONTINUE] or [END], then write your message in "
      ++ getLanguageName params.learningLanguage
      ++ ".\n\nExample:\n[CONTINUE] Perfetto! Vuoi pagare con contante o carta di credito?\n\nor\n\n[END] Grazie mille! \u00c8 stato un piacere aiutarti."
  else
    "You are " ++ params.characterName ++ ", a friendly " ++ params.role
      ++ " at the " ++ params.location ++ ".\n"
      ++ languageInstruction params.nativeLanguage params.learningLanguage ++ "\n\n"
      ++ topicPrompt params ++ "\n\n" ++ getDifficultyGuidelines params.difficulty
      ++ "\n\nGuidelines:\n- Stay in character naturally\n- Keep responses concise but warm\n- Move the conversation forward\n- Don\x27t be overly formal or verbose\n\nWrite your message in "
      ++ getLanguageName params.learningLanguage ++ "."

/-! ## Control-tag parsing (`src/app/api/chat/route.ts`) -/

/-- The `[CONTINUE]`/`[END]` parsing block of the chat route `POST`
handler: `shouldEnd` starts as `mustEnd`; only when `canEnd && !mustEnd`
is a leading marker consumed (first-occurrence `replace` plus `trim`). -/
def parseControlTag (canEnd mustEnd : Bool) (responseText : String) : Bool × String :=
  if canEnd && !mustEnd then
    if strStartsWith responseText "[END]" then
      (true, jsTrim (jsReplaceFirst responseText "[END]" ""))
    else if strStartsWith responseText "[CONTINUE]" then
      (false, jsTrim (jsReplaceFirst responseText "[CONTINUE]" ""))
    else (mustEnd, responseText)
  else (mustEnd, responseText)

/-! ## Evaluation-verdict parsing (the evaluation route `POST` handler,
`src/unnamed/part_001`) -/

/-- The anchored case-insensitive regex replacement
`responseText.replace(/^CORRECTION:\s*/i, "")`: when the prefix matches
at the very start of the string, the prefix and the following
whitespace run are removed; otherwise the string is unchanged. -/
def stripCorrectionRegex (s : String) : String :=
  if strStartsWith (jsToUpper s) "CORRECTION:" then
    String.mk ((s.data.drop 11).dropWhile isJsWhitespace)
  else s

/-- The verdict parsing of the evaluation route: `needsCorrection` and
`correction` (the independent `errors` extraction, which the result only
carries alongside, is not modelled).  The prefix test runs on
`responseText.trim().toUpperCase()`, the strip regex on the untrimmed
`responseText`. -/
def parseEvaluation (responseText : String) : Bool × Option String :=
  if strStartsWith (jsToUpper (jsTrim responseText)) "CORRECTION:" then
    (true, some (jsTrim (stripCorrectionRegex responseText)))
  else if strStartsWith (jsToUpper (jsTrim responseText)) "OK:" then
    (false, none)
  else
    (false, none)

/-! ## General lemmas about the string model -/

theorem strData_append (a b : String) : (a ++ b).data = a.data ++ b.data := rfl

theorem strExt {a b : String} (h : a.data = b.data) : a = b := by
  cases a; cases b; exact congrArg String.mk h

theorem strAppend_assoc (a b c : String) : (a ++ b) ++ c = a ++ (b ++ c) := by
  apply strExt
  simp [strData_append]

theorem mem_of_isPrefixOf {pat s : List Char} {c : Char}
    (h : List.isPrefixOf pat s = true) (hc : c ∈ pat) : c ∈ s := by
  induction pat generalizing s with
  | nil => cases hc
  | cons p ps ih =>
    cases s with
    | nil => simp [List.isPrefixOf] at h
    | cons q qs =>
      simp only [List.isPrefixOf, Bool.and_eq_true, beq_iff_eq] at h
      rcases hc with _ | hc
      · exact h.1 ▸ List.mem_cons_self _ _
      · exact List.mem_cons_of_mem _ (ih h.2 (by assumption))

theorem mem_of_occursInL {pat s : List Char} {c : Char}
    (h : occursInL pat s = true) (hc : c ∈ pat) : c ∈ s := by
  induction s with
  | nil =>
    cases pat with
    | nil => cases hc
    | cons p ps => simp [occursInL, List.isPrefixOf] at h
  | cons x xs ih =>
    simp only [occursInL, Bool.or_eq_true] at h
    rcases h with h | h
    · exact mem_of_isPrefixOf h hc
    · exact List.mem_cons_of_mem _ (ih h)

theorem occursInL_eq_false_of_not_mem {pat s : List Char} {c : Char}
    (hcp : c ∈ pat) (hcs : c ∉ s) : occursInL pat s = false := by
  cases h : occursInL pat s with
  | false => rfl
  | true => exact absurd (mem_of_occursInL h hcp) hcs

theorem isPrefixOf_append_cons {pat : List Char} {c : Char}
    (hc : c ∉ pat) (xs ys : List Char) :
    List.isPrefixOf pat (xs ++ c :: ys) = List.isPrefixOf pat xs := by
  induction pat generalizing xs with
  | nil => simp [List.isPrefixOf]
  | cons p ps ih =>
    cases xs with
    | nil =>
      have hpc : (p == c) = false := by
        simp only [beq_eq_false_iff_ne, ne_eq]
        intro h; exact hc (h ▸ List.mem_cons_self _ _)
      simp [List.isPrefixOf, hpc]
    | cons x xs' =>
      have hc' : c ∉ ps := fun h => hc (List.mem_cons_of_mem _ h)
      simp only [List.cons_append, List.isPrefixOf, List.append_eq, ih hc']

theorem occursInL_append_cons {pat : List Char} {c : Char}
    (hc : c ∉ pat) (xs ys : List Char) :
    occursInL pat (xs ++ c :: ys) = (occursInL pat xs || occursInL pat ys) := by
  induction xs with
  | nil =>
    cases pat with
    | nil => simp [occursInL, List.isPrefixOf]
    | cons p ps =>
      have hpc : (p == c) = false := by
        simp only [beq_eq_false_iff_ne, ne_eq]
        intro h; exact hc (h ▸ List.mem_cons_self _ _)
      simp [occursInL, List.isPrefixOf, hpc]
  | cons x xs' ih =>
    have h1 := isPrefixOf_append_cons hc (x :: xs') ys
    simp only [List.cons_append] at h1
    simp only [List.cons_append, occursInL, List.append_eq, h1, ih, Bool.or_assoc]

theorem containsSubstr_append_newline (a b pat : String)
    (h : '\n' ∉ pat.data) :
    containsSubstr (a ++ "\n" ++ b) pat = (containsSubstr a pat || containsSubstr b pat) := by
  have : (a ++ "\n" ++ b).data = a.data ++ '\n' :: b.data := by
    simp [strData_append]
  simp only [containsSubstr, this]
  exact occursInL_append_cons h a.data b.data

/-! ## Lemmas about the progress ledger -/

theorem result_difficulties_at_level (p : UserProgress) (loc now : String) :
    ((completeConversation loc now p).1).difficulties p.globalLevel
      = some (postDifficultyProgress p loc now) := by
  unfold completeConversation
  split
  · split <;> simp [savedDifficulties]
  · simp [savedDifficulties]

theorem result_difficulties_other_level (p : UserProgress) (loc now : String)
    (lvl : DifficultyLevel) (h : lvl ≠ p.globalLevel) :
    ((completeConversation loc now p).1).difficulties lvl = p.difficulties lvl := by
  unfold completeConversation
  split
  · split <;> simp [savedDifficulties, h]
  · simp [savedDifficulties, h]

theorem stagesAt_result (p : UserProgress) (loc now l : String) :
    stagesAt (completeConversation loc now p).1 p.globalLevel l
      = dpStages (postDifficultyProgress p loc now) l := by
  unfold stagesAt locationRecord dpStages
  rw [result_difficulties_at_level, Option.some_bind]

theorem postDifficultyProgress_eq (p : UserProgress) (loc now l : String) :
    postDifficultyProgress p loc now l
      = if l = loc then
          some (updatedLocationProgress
            ((locationRecord p p.globalLevel loc).getD initLocationProgress) now)
        else locationRecord p p.globalLevel l := rfl

theorem updatedLocationProgress_stages (lp : LocationDifficultyProgress) (now : String) :
    (updatedLocationProgress lp now).completedStages
      = if lp.completedStages < STAGES_PER_LOCATION then lp.completedStages + 1
        else lp.completedStages := by
  unfold updatedLocationProgress
  split <;> rfl

theorem updatedLocationProgress_topics (lp : LocationDifficultyProgress) (now : String) :
    (updatedLocationProgress lp now).completedTopics = lp.completedTopics := by
  unfold updatedLocationProgress
  split <;> rfl

theorem getD_locationRecord_stages (p : UserProgress) (lvl : DifficultyLevel) (loc : String) :
    ((locationRecord p lvl loc).getD initLocationProgress).completedStages
      = stagesAt p lvl loc := by
  unfold stagesAt
  cases locationRecord p lvl loc <;> rfl

theorem dpStages_post (p : UserProgress) (loc now l : String) :
    dpStages (postDifficultyProgress p loc now) l
      = if l = loc then
          (if stagesAt p p.globalLevel loc < STAGES_PER_LOCATION then
            stagesAt p p.globalLevel loc + 1
          else stagesAt p p.globalLevel loc)
        else stagesAt p p.globalLevel l := by
  by_cases hl : l = loc
  · subst hl
    unfold dpStages
    rw [postDifficultyProgress_eq, if_pos rfl, if_pos rfl]
    simp only [Option.map_some', Option.getD_some]
    rw [updatedLocationProgress_stages, getD_locationRecord_stages]
  · unfold dpStages stagesAt
    rw [postDifficultyProgress_eq, if_neg hl, if_neg hl]

theorem allLocationsComplete_iff (dp : String → Option LocationDifficultyProgress) :
    allLocationsComplete dp = true
      ↔ ∀ l ∈ ALL_LOCATIONS, STAGES_PER_LOCATION ≤ dpStages dp l := by
  unfold allLocationsComplete
  rw [List.all_eq_true]
  constructor
  · intro h l hl
    have := h l hl
    revert this
    unfold dpStages
    cases dp l
    · intro h'; cases h'
    · intro h'; exact of_decide_eq_true h'
  · intro h l hl
    have := h l hl
    revert this
    unfold dpStages
    cases dp l
    · intro h'; exact absurd h' (by decide)
    · intro h'; exact decide_eq_true h'

theorem completeConversation_advanced_iff (p : UserProgress) (loc now : String) :
    (completeConversation loc now p).2.advanced = true
      ↔ (allLocationsComplete (postDifficultyProgress p loc now) = true
          ∧ getNextDifficultyLevel p.globalLevel ≠ none) := by
  unfold completeConversation
  split
  · split
    · simp_all
    · simp_all
  · simp_all

theorem stagesAt_result_other_level (p : UserProgress) (loc now l : String)
    (lvl : DifficultyLevel) (h : lvl ≠ p.globalLevel) :
    stagesAt (completeConversation loc now p).1 lvl l = stagesAt p lvl l := by
  unfold stagesAt locationRecord
  rw [result_difficulties_other_level p loc now lvl h]

theorem stagesAt_step_mono (p : UserProgress) (loc now : String)
    (lvl : DifficultyLevel) (l : String) :
    stagesAt p lvl l ≤ stagesAt (completeConversation loc now p).1 lvl l := by
  by_cases hlvl : lvl = p.globalLevel
  · subst hlvl
    rw [stagesAt_result, dpStages_post]
    by_cases hl : l = loc
    · rw [if_pos hl, hl]
      split
      · exact Nat.le_succ _
      · exact Nat.le_refl _
    · rw [if_neg hl]
  · rw [stagesAt_result_other_level p loc now l lvl hlvl]

theorem stagesAt_step_cap (p : UserProgress) (loc now : String)
    (h : ∀ lvl l, stagesAt p lvl l ≤ STAGES_PER_LOCATION) :
    ∀ lvl l, stagesAt (completeConversation loc now p).1 lvl l ≤ STAGES_PER_LOCATION := by
  intro lvl l
  by_cases hlvl : lvl = p.globalLevel
  · subst hlvl
    rw [stagesAt_result, dpStages_post]
    by_cases hl : l = loc
    · rw [if_pos hl]
      split
      · omega
      · exact h _ _
    · rw [if_neg hl]
      exact h _ _
  · rw [stagesAt_result_other_level p loc now l lvl hlvl]
    exact h _ _

theorem markTopicComplete_noop (loc : String) (d : DifficultyLevel) (tid : String)
    (p : UserProgress)
    (h : (((locationRecord p d loc).getD initLocationProgress).completedTopics).contains tid
      = true) :
    markTopicComplete loc d tid p = p := by
  unfold markTopicComplete
  rw [if_pos h]

theorem markTopicComplete_contains_after (loc : String) (d : DifficultyLevel)
    (tid : String) (p : UserProgress) :
    (((locationRecord (markTopicComplete loc d tid p) d loc).getD
        initLocationProgress).completedTopics).contains tid = true := by
  by_cases h : (((locationRecord p d loc).getD initLocationProgress).completedTopics).contains tid
      = true
  · rw [markTopicComplete_noop loc d tid p h]
    exact h
  · have hrw : locationRecord (markTopicComplete loc d tid p) d loc
        = some { (locationRecord p d loc).getD initLocationProgress with
            completedTopics :=
              (((locationRecord p d loc).getD initLocationProgress).completedTopics) ++ [tid] } := by
      unfold markTopicComplete
      rw [if_neg h]
      unfold locationRecord
      simp
    rw [hrw, Option.getD_some]
    simp

/-! ## Claim theorems: progress ledger -/

/-- C1: a `completeConversation` call that brings every location in
`ALL_LOCATIONS` to 3 completed stages while the current tier is
`beginner` returns `{advanced := true, newLevel := intermediate}` and
sets the current tier to `intermediate`; while the tier is
`intermediate`, a call after which some location is still below 3 stages
reports no advancement; and at the highest tier `advanced` a call never
advances and leaves the tier unchanged. -/
theorem completeConversation_tier_advancement (p : UserProgress) (loc now : String) :
    ((p.globalLevel = DifficultyLevel.beginner ∧
        ∀ l ∈ ALL_LOCATIONS,
          STAGES_PER_LOCATION
            ≤ stagesAt (completeConversation loc now p).1 DifficultyLevel.beginner l) →
      (completeConversation loc now p).2
          = { advanced := true, newLevel := some DifficultyLevel.intermediate } ∧
        ((completeConversation loc now p).1).globalLevel = DifficultyLevel.intermediate) ∧
    ((p.globalLevel = DifficultyLevel.intermediate ∧
        ∃ l ∈ ALL_LOCATIONS,
          stagesAt (completeConversation loc now p).1 DifficultyLevel.intermediate l
            < STAGES_PER_LOCATION) →
      (completeConversation loc now p).2.advanced = false) ∧
    (p.globalLevel = DifficultyLevel.advanced →
      (completeConversation loc now p).2.advanced = false ∧
        ((completeConversation loc now p).1).globalLevel = DifficultyLevel.advanced) := by
  refine ⟨?_, ?_, ?_⟩
  · rintro ⟨hlev, hall⟩
    have hac : allLocationsComplete (postDifficultyProgress p loc now) = true := by
      rw [allLocationsComplete_iff]
      intro l hl
      rw [← stagesAt_result, hlev]
      exact hall l hl
    unfold completeConversation
    rw [hlev]
    have hnext : getNextDifficultyLevel DifficultyLevel.beginner
        = some DifficultyLevel.intermediate := by decide
    rw [hnext]
    simp [hac]
  · rintro ⟨hlev, l, hl, hlt⟩
    have hac : allLocationsComplete (postDifficultyProgress p loc now) = false := by
      cases hcc : allLocationsComplete (postDifficultyProgress p loc now) with
      | false => rfl
      | true =>
        exfalso
        rw [allLocationsComplete_iff] at hcc
        have := hcc l hl
        rw [← stagesAt_result, hlev] at this
        omega
    unfold completeConversation
    simp only [hac, Bool.false_eq_true, if_false]
  · intro hlev
    have hnext : getNextDifficultyLevel p.globalLevel = none := by
      rw [hlev]; decide
    unfold completeConversation
    rw [hnext]
    split
    · exact ⟨rfl, hlev⟩
    · exact ⟨rfl, hlev⟩

/-- Witness for C1 at a concrete record: beginner tier, all other
locations complete, the triggering call on `"restaurant"`. -/
theorem completeConversation_tier_advancement_witness :
    (completeConversation "restaurant" "2026-01-01" sampleAlmostComplete).2
        = { advanced := true, newLevel := some DifficultyLevel.intermediate } ∧
      ((completeConversation "restaurant" "2026-01-01" sampleAlmostComplete).1).globalLevel
        = DifficultyLevel.intermediate :=
  (completeConversation_tier_advancement sampleAlmostComplete "restaurant" "2026-01-01").1
    ⟨rfl, by decide⟩

/-- C2: across any sequence of `completeConversation` calls, every
location's stage count at every tier is monotonically non-decreasing,
and it never exceeds `STAGES_PER_LOCATION = 3` when the starting record
respects the data-model bound `completedStages ∈ [0, 3]`. -/
theorem completedStages_monotone_capped (p : UserProgress) (calls : List (String × String)) :
    (∀ lvl l, stagesAt p lvl l ≤ stagesAt (runCompletions calls p) lvl l) ∧
    ((∀ lvl l, stagesAt p lvl l ≤ STAGES_PER_LOCATION) →
      ∀ lvl l, stagesAt (runCompletions calls p) lvl l ≤ STAGES_PER_LOCATION) := by
  induction calls generalizing p with
  | nil => exact ⟨fun _ _ => Nat.le_refl _, fun h => h⟩
  | cons c cs ih =>
    have hstep : runCompletions (c :: cs) p
        = runCompletions cs (completeConversation c.1 c.2 p).1 := rfl
    rw [hstep]
    constructor
    · intro lvl l
      exact Nat.le_trans (stagesAt_step_mono p c.1 c.2 lvl l)
        ((ih (completeConversation c.1 c.2 p).1).1 lvl l)
    · intro h
      exact (ih (completeConversation c.1 c.2 p).1).2 (stagesAt_step_cap p c.1 c.2 h)

/-- Witness for C2: six calls on the restaurant from the default record
leave its beginner stage count at the cap of 3. -/
theorem completedStages_monotone_capped_witness :
    stagesAt
        (runCompletions
          [("restaurant", "t1"), ("restaurant", "t2"), ("restaurant", "t3"),
            ("restaurant", "t4"), ("restaurant", "t5"), ("restaurant", "t6")]
          getDefaultProgress)
        DifficultyLevel.beginner "restaurant" ≤ STAGES_PER_LOCATION :=
  (completedStages_monotone_capped getDefaultProgress
      [("restaurant", "t1"), ("restaurant", "t2"), ("restaurant", "t3"),
        ("restaurant", "t4"), ("restaurant", "t5"), ("restaurant", "t6")]).2
    (fun lvl l => by simp [stagesAt, locationRecord, getDefaultProgress])
    DifficultyLevel.beginner "restaurant"

/-- C9: `completeConversation` changes at most the current tier's record
of the given location and the stored current-tier field: every other
tier's map is unchanged, every other location's record at the current
tier is unchanged, and the given location's completed-topics list at the
current tier is unchanged. -/
theorem completeConversation_frame (p : UserProgress) (loc now : String) :
    (∀ lvl, lvl ≠ p.globalLevel →
      ((completeConversation loc now p).1).difficulties lvl = p.difficulties lvl) ∧
    (∀ l, l ≠ loc →
      locationRecord (completeConversation loc now p).1 p.globalLevel l
        = locationRecord p p.globalLevel l) ∧
    completedTopicsAt (completeConversation loc now p).1 p.globalLevel loc
      = completedTopicsAt p p.globalLevel loc := by
  refine ⟨?_, ?_, ?_⟩
  · intro lvl h
    exact result_difficulties_other_level p loc now lvl h
  · intro l hl
    unfold locationRecord
    rw [result_difficulties_at_level, Option.some_bind, postDifficultyProgress_eq, if_neg hl]
    rfl
  · have h1 : locationRecord (completeConversation loc now p).1 p.globalLevel loc
        = some (updatedLocationProgress
            ((locationRecord p p.globalLevel loc).getD initLocationProgress) now) := by
      unfold locationRecord
      rw [result_difficulties_at_level, Option.some_bind, postDifficultyProgress_eq, if_pos rfl]
      rfl
    unfold completedTopicsAt
    rw [h1, Option.map_some', Option.getD_some, updatedLocationProgress_topics]
    cases hrec : locationRecord p p.globalLevel loc <;> rfl

/-- Witness for C9 at the default record: the advanced tier's map, the
bakery record, and the restaurant's completed-topics list are untouched
by a restaurant completion. -/
theorem completeConversation_frame_witness :
    ((completeConversation "restaurant" "t" getDefaultProgress).1).difficulties
          DifficultyLevel.advanced
        = getDefaultProgress.difficulties DifficultyLevel.advanced ∧
      locationRecord (completeConversation "restaurant" "t" getDefaultProgress).1
          getDefaultProgress.globalLevel "bakery"
        = locationRecord getDefaultProgress getDefaultProgress.globalLevel "bakery" ∧
      completedTopicsAt (completeConversation "restaurant" "t" getDefaultProgress).1
          getDefaultProgress.globalLevel "restaurant"
        = completedTopicsAt getDefaultProgress getDefaultProgress.globalLevel "restaurant" :=
  ⟨(completeConversation_frame getDefaultProgress "restaurant" "t").1
      DifficultyLevel.advanced (by decide),
    (completeConversation_frame getDefaultProgress "restaurant" "t").2.1 "bakery" (by decide),
    (completeConversation_frame getDefaultProgress "restaurant" "t").2.2⟩

/-- C8: a second `markTopicComplete` with the same location, tier and
topic id is a no-op: the stored record, and in particular the
per-location per-tier completed-topic list and its size, are unchanged. -/
theorem markTopicComplete_idempotent (loc : String) (d : DifficultyLevel)
    (tid : String) (p : UserProgress) :
    markTopicComplete loc d tid (markTopicComplete loc d tid p) = markTopicComplete loc d tid p ∧
    completedTopicsAt (markTopicComplete loc d tid (markTopicComplete loc d tid p)) d loc
        = completedTopicsAt (markTopicComplete loc d tid p) d loc ∧
    (completedTopicsAt (markTopicComplete loc d tid (markTopicComplete loc d tid p)) d loc).length
        = (completedTopicsAt (markTopicComplete loc d tid p) d loc).length := by
  have h := markTopicComplete_noop loc d tid (markTopicComplete loc d tid p)
    (markTopicComplete_contains_after loc d tid p)
  exact ⟨h, by rw [h], by rw [h]⟩

/-- C5: every tier's turn limits are positive and ordered: `0 < min ≤ max`. -/
theorem getTurnLimits_bounds :
    ∀ d : DifficultyLevel,
      0 < (getTurnLimits d).min ∧ (getTurnLimits d).min ≤ (getTurnLimits d).max := by
  intro d
  cases d <;> exact ⟨by decide, by decide⟩

/-! ## Claim theorems: control-tag parsing -/

theorem replaceFirstAux_of_isPrefixOf (pat rep s : List Char)
    (h : List.isPrefixOf pat s = true) :
    replaceFirstAux pat rep s = rep ++ s.drop pat.length := by
  cases s with
  | nil => simp [replaceFirstAux, h]
  | cons c cs => simp [replaceFirstAux, h]

theorem jsReplaceFirst_of_startsWith (s p : String) (h : strStartsWith s p = true) :
    jsReplaceFirst s p "" = strDrop s p.data.length := by
  unfold jsReplaceFirst strDrop
  exact congrArg String.mk (by rw [replaceFirstAux_of_isPrefixOf _ _ _ h]; simp)

/-- C3: when `canEnd && !mustEnd`, a response starting with `[END]` ends
the conversation with the marker stripped and the rest trimmed, one
starting with `[CONTINUE]` continues with the marker stripped, and one
with neither marker continues unchanged; when `mustEnd`, the result is
forced to end and the text is left untouched whatever it starts with. -/
theorem chatRoute_controlTag_parsing (text : String) :
    (strStartsWith text "[END]" = true →
      parseControlTag true false text = (true, jsTrim (strDrop text 5))) ∧
    (strStartsWith text "[CONTINUE]" = true →
      parseControlTag true false text = (false, jsTrim (strDrop text 10))) ∧
    (strStartsWith text "[END]" = false → strStartsWith text "[CONTINUE]" = false →
      parseControlTag true false text = (false, text)) ∧
    (∀ canEnd : Bool, parseControlTag canEnd true text = (true, text)) := by
  refine ⟨?_, ?_, ?_, ?_⟩
  · intro h
    have hj : jsTrim (jsReplaceFirst text "[END]" "") = jsTrim (strDrop text 5) := by
      rw [jsReplaceFirst_of_startsWith text "[END]" h]
      rfl
    simp [parseControlTag, h, hj]
  · intro h
    have hj : jsTrim (jsReplaceFirst text "[CONTINUE]" "") = jsTrim (strDrop text 10) := by
      rw [jsReplaceFirst_of_startsWith text "[CONTINUE]" h]
      rfl
    have hend : strStartsWith text "[END]" = false := by
      cases hcon : strStartsWith text "[END]" with
      | false => rfl
      | true =>
        exfalso
        have he : ("[END]".data) <+: text.data := List.isPrefixOf_iff_prefix.mp hcon
        have hc : ("[CONTINUE]".data) <+: text.data := List.isPrefixOf_iff_prefix.mp h
        have hlen : ("[END]".data).length ≤ ("[CONTINUE]".data).length := by decide
        exact absurd (List.prefix_of_prefix_length_le he hc hlen) (by decide)
    simp [parseControlTag, hend, h, hj]
  · intro h1 h2
    simp [parseControlTag, h1, h2]
  · intro canEnd
    simp [parseControlTag]

/-- Witness for C3 at the spec's concrete examples. -/
theorem chatRoute_controlTag_parsing_witness :
    parseControlTag true false "[END] Goodbye!" = (true, "Goodbye!") ∧
    parseControlTag true false "[CONTINUE] What else?" = (false, "What else?") ∧
    parseControlTag true false "Ciao!" = (false, "Ciao!") ∧
    parseControlTag true true "[END] Bye" = (true, "[END] Bye") :=
  ⟨((chatRoute_controlTag_parsing "[END] Goodbye!").1 (by decide)).trans (by decide),
    ((chatRoute_controlTag_parsing "[CONTINUE] What else?").2.1 (by decide)).trans (by decide),
    (chatRoute_controlTag_parsing "Ciao!").2.2.1 (by decide) (by decide),
    (chatRoute_controlTag_parsing "[END] Bye").2.2.2 true⟩

/-! ## Claim theorems: evaluation-verdict parsing -/

theorem dropWhile_self_idem (q : Char → Bool) (l : List Char) :
    (l.dropWhile q).dropWhile q = l.dropWhile q := by
  induction l with
  | nil => rfl
  | cons c cs ih =>
    by_cases h : q c = true
    · simp [List.dropWhile_cons, h, ih]
    · simp [List.dropWhile_cons, h]

theorem jsTrim_dropWhile (l : List Char) :
    jsTrim (String.mk (l.dropWhile isJsWhitespace)) = jsTrim (String.mk l) := by
  unfold jsTrim trimChars
  exact congrArg String.mk (by rw [show (String.mk (l.dropWhile isJsWhitespace)).data
    = l.dropWhile isJsWhitespace from rfl, dropWhile_self_idem])

/-- C7 (amended): `needsCorrection` is decided by a case-insensitive
prefix check on the trimmed response; the reported correction equals the
trimmed text after the prefix when the prefix sits at the very start of
the untrimmed response, while a response whose prefix appears only after
trimming keeps the prefix inside the correction; a trimmed response
starting with neither `CORRECTION:` nor any other recognized form yields
`needsCorrection = false` with no correction (fail-safe default). -/
theorem evaluationParsing_spec (s : String) :
    (strStartsWith (jsToUpper s) "CORRECTION:" = true →
      strStartsWith (jsToUpper (jsTrim s)) "CORRECTION:" = true →
      parseEvaluation s = (true, some (jsTrim (strDrop s 11)))) ∧
    (strStartsWith (jsToUpper (jsTrim s)) "CORRECTION:" = true →
      strStartsWith (jsToUpper s) "CORRECTION:" = false →
      parseEvaluation s = (true, some (jsTrim s))) ∧
    (strStartsWith (jsToUpper (jsTrim s)) "CORRECTION:" = false →
      parseEvaluation s = (false, none)) := by
  refine ⟨?_, ?_, ?_⟩
  · intro hu hd
    have hstrip : stripCorrectionRegex s
        = String.mk ((s.data.drop 11).dropWhile isJsWhitespace) := by
      unfold stripCorrectionRegex
      rw [if_pos hu]
    have htrim : jsTrim (stripCorrectionRegex s) = jsTrim (strDrop s 11) := by
      rw [hstrip]
      exact jsTrim_dropWhile (s.data.drop 11)
    simp [parseEvaluation, hd, htrim]
  · intro hd hu
    have hstrip : stripCorrectionRegex s = s := by
      unfold stripCorrectionRegex
      rw [if_neg (by rw [hu]; exact fun hcon => Bool.false_ne_true hcon)]
    simp [parseEvaluation, hd, hstrip]
  · intro hd
    unfold parseEvaluation
    rw [if_neg (by rw [hd]; exact fun hcon => Bool.false_ne_true hcon)]
    split <;> rfl

/-- Counterexample for C7 as stated: a response whose trimmed text starts
with the prefix but which carries leading whitespace keeps the prefix in
its correction instead of the text after the prefix. -/
theorem evaluationParsing_counterexample :
    (parseEvaluation " CORRECTION: use X instead").1 = true ∧
    (parseEvaluation " CORRECTION: use X instead").2 ≠ some "use X instead" ∧
    (parseEvaluation " CORRECTION: use X instead").2 = some "CORRECTION: use X instead" := by
  refine ⟨by decide, ?_, by decide⟩
  intro h
  exact absurd h (by decide)

/-- Witness for C7 (amended) at the spec's concrete examples. -/
theorem evaluationParsing_spec_witness :
    parseEvaluation "CORRECTION: use X instead" = (true, some "use X instead") ∧
    parseEvaluation "OK: fine" = (false, none) ∧
    parseEvaluation "no verdict here" = (false, none) :=
  ⟨((evaluationParsing_spec "CORRECTION: use X instead").1 (by decide) (by decide)).trans
      (by decide),
    (evaluationParsing_spec "OK: fine").2.2 (by decide),
    (evaluationParsing_spec "no verdict here").2.2 (by decide)⟩

/-! ## Claim theorems: topic selection -/

theorem getD_mem_of_lt {α : Type} (l : List α) (i : Nat) (d : α) (h : i < l.length) :
    l.getD i d ∈ l := by
  induction l generalizing i with
  | nil => exact absurd h (by simp)
  | cons a as ih =>
    cases i with
    | zero => exact List.mem_cons_self _ _
    | succ n =>
      exact List.mem_cons_of_mem _ (ih n (Nat.lt_of_succ_lt_succ h))

theorem selectedTopicId_mem (locationSlug : String) (difficulty : DifficultyLevel)
    (p : UserProgress) (r : Nat)
    (hlen : (getAllTopicIdsForLocation locationSlug difficulty).length ≠ 0) :
    (if 0 < (availableTopicIds locationSlug difficulty p).length then
        (availableTopicIds locationSlug difficulty p).getD
          (r % (availableTopicIds locationSlug difficulty p).length) ""
      else
        (getAllTopicIdsForLocation locationSlug difficulty).getD
          (r % (getAllTopicIdsForLocation locationSlug difficulty).length) "")
      ∈ getAllTopicIdsForLocation locationSlug difficulty := by
  split
  · next hav =>
    have hm := getD_mem_of_lt (availableTopicIds locationSlug difficulty p)
      (r % (availableTopicIds locationSlug difficulty p).length) "" (Nat.mod_lt _ hav)
    exact (List.mem_filter.mp hm).1
  · exact getD_mem_of_lt _ _ _ (Nat.mod_lt _ (Nat.pos_of_ne_zero hlen))

/-- C6: a topic returned by `selectNextTopic` always carries an id from
the catalog of the requested (location, tier); and whenever some catalog
topic is not yet completed, the returned id is one of the not-yet-completed
ones (the full catalog is only used as fallback when all are completed). -/
theorem selectNextTopic_in_catalog (locationSlug : String) (difficulty : DifficultyLevel)
    (p : UserProgress) (r : Nat) (t : Topic)
    (h : selectNextTopic locationSlug difficulty p r = some t) :
    t.id ∈ getAllTopicIdsForLocation locationSlug difficulty ∧
    (availableTopicIds locationSlug difficulty p ≠ [] →
      t.id ∈ availableTopicIds locationSlug difficulty p) := by
  unfold selectNextTopic at h
  by_cases hlen : (getAllTopicIdsForLocation locationSlug difficulty).length = 0
  · rw [if_pos hlen] at h
    exact absurd h (by simp)
  · rw [if_neg hlen] at h
    unfold getTopicById at h
    have hid : t.id = (if 0 < (availableTopicIds locationSlug difficulty p).length then
        (availableTopicIds locationSlug difficulty p).getD
          (r % (availableTopicIds locationSlug difficulty p).length) ""
      else
        (getAllTopicIdsForLocation locationSlug difficulty).getD
          (r % (getAllTopicIdsForLocation locationSlug difficulty).length) "") := by
      have := List.find?_some h
      exact beq_iff_eq.mp this
    constructor
    · rw [hid]
      exact selectedTopicId_mem locationSlug difficulty p r hlen
    · intro hav
      have hpos : 0 < (availableTopicIds locationSlug difficulty p).length :=
        List.length_pos.mpr hav
      rw [hid, if_pos hpos]
      exact getD_mem_of_lt _ _ _ (Nat.mod_lt _ hpos)

/-- Witness for C6: with one bakery topic completed, the selected topic's
id is drawn from the catalog's not-yet-completed ids. -/
theorem selectNextTopic_in_catalog_witness :
    availableTopicIds "bakery" DifficultyLevel.beginner sampleOneTopicDone ≠ [] ∧
    "asking-price" ∈ availableTopicIds "bakery" DifficultyLevel.beginner sampleOneTopicDone :=
  ⟨by decide,
    (selectNextTopic_in_catalog "bakery" DifficultyLevel.beginner sampleOneTopicDone 0
        { id := "asking-price", name := "Asking for Price",
          description := "Inquire about the cost of items" }
        (by decide)).2 (by decide)⟩

/-- C10: `selectNextTopic` returns `none` exactly when the catalog for the
requested (location, tier) is empty; an unrecognized location slug yields
the empty catalog, hence `none` rather than an error. -/
theorem selectNextTopic_none_iff (locationSlug : String) (difficulty : DifficultyLevel)
    (p : UserProgress) (r : Nat) :
    selectNextTopic locationSlug difficulty p r = none
      ↔ getTopicsForLocation locationSlug difficulty = [] := by
  constructor
  · intro h
    by_contra hne
    have hlen : (getAllTopicIdsForLocation locationSlug difficulty).length ≠ 0 := by
      unfold getAllTopicIdsForLocation
      rw [List.length_map]
      exact fun hz => hne (List.length_eq_zero.mp hz)
    unfold selectNextTopic at h
    rw [if_neg hlen] at h
    have hsel := selectedTopicId_mem locationSlug difficulty p r hlen
    obtain ⟨t', ht'mem, ht'id⟩ := List.mem_map.mp hsel
    unfold getTopicById at h
    rw [List.find?_eq_none] at h
    exact absurd (beq_iff_eq.mpr ht'id) (h t' ht'mem)
  · intro h
    unfold selectNextTopic
    rw [if_pos (by unfold getAllTopicIdsForLocation; rw [h]; rfl)]

/-- Witness for C10: the unrecognized slug `"gym"` has an empty catalog
and selection returns `none`. -/
theorem selectNextTopic_none_iff_witness :
    selectNextTopic "gym" DifficultyLevel.beginner getDefaultProgress 0 = none :=
  (selectNextTopic_none_iff "gym" DifficultyLevel.beginner getDefaultProgress 0).mpr (by decide)

/-! ## Claim theorems: prompt assembler -/

theorem getLanguageName_no_bracket (c : String) (h : '[' ∉ c.data) :
    '[' ∉ (getLanguageName c).data := by
  unfold getLanguageName
  split
  · decide
  · split
    · decide
    · split
      · decide
      · split
        · decide
        · split
          · decide
          · exact h

theorem languageInstruction_no_bracket (n l : String)
    (hn : '[' ∉ n.data) (hl : '[' ∉ l.data) :
    '[' ∉ (languageInstruction n l).data := by
  unfold languageInstruction
  split
  · intro hmem
    simp only [strData_append, List.mem_append, or_assoc] at hmem
    rcases hmem with h | h | h | h | h | h | h | h | h
    · exact absurd h (by decide)
    · exact getLanguageName_no_bracket l hl h
    · exact absurd h (by decide)
    · exact getLanguageName_no_bracket n hn h
    · exact absurd h (by decide)
    · exact getLanguageName_no_bracket l hl h
    · exact absurd h (by decide)
    · exact getLanguageName_no_bracket n hn h
    · exact absurd h (by decide)
  · decide

theorem containsSubstr_split_at_newline (x y pat : String)
    (hnl : '\n' ∉ pat.data) (hbr : '[' ∈ pat.data) (hx : '[' ∉ x.data)
    (hy : containsSubstr y pat = false) :
    containsSubstr (x ++ "\n" ++ y) pat = false := by
  rw [containsSubstr_append_newline x y pat hnl, hy,
    show containsSubstr x pat = false from occursInL_eq_false_of_not_mem hbr hx]
  rfl

/-- C4 (amended): for every input whose interpolated string fields
(character name, role, location and the two language codes) contain no
`[` character, the `mustEnd` system prompt never contains the
`[CONTINUE]`/`[END]` response-format instruction block
`"Start your response with [CONTINUE] or [END]"`. -/
theorem buildSystemPrompt_mustEnd_no_marker_block (params : BuildPromptParams)
    (hme : params.mustEnd = true)
    (h1 : '[' ∉ params.characterName.data)
    (h2 : '[' ∉ params.role.data)
    (h3 : '[' ∉ params.location.data)
    (h4 : '[' ∉ params.nativeLanguage.data)
    (h5 : '[' ∉ params.learningLanguage.data) :
    containsSubstr (buildSystemPrompt params)
      "Start your response with [CONTINUE] or [END]" = false := by
  unfold buildSystemPrompt
  simp only [hme, if_true]
  rw [strAppend_assoc, strAppend_assoc]
  apply containsSubstr_split_at_newline
  · decide
  · decide
  · intro hmem
    simp only [strData_append, List.mem_append, or_assoc] at hmem
    rcases hmem with h | h | h | h | h | h | h | h
    · exact absurd h (by decide)
    · exact h1 h
    · exact absurd h (by decide)
    · exact h2 h
    · exact absurd h (by decide)
    · exact h3 h
    · exact absurd h (by decide)
    · exact languageInstruction_no_bracket params.nativeLanguage params.learningLanguage
        h4 h5 h
  · cases h : params.difficulty <;> decide

/-- Counterexample for C4 as stated: quantifying over every character
name, a name that itself consists of the instruction-block text makes
the assembled `mustEnd` prompt contain that block. -/
theorem buildSystemPrompt_mustEnd_counterexample :
    containsSubstr
      (buildSystemPrompt
        { characterName := "Start your response with [CONTINUE] or [END]",
          role := "barista", location := "Bakery",
          difficulty := DifficultyLevel.beginner, topic := none, turnCount := 5,
          canEnd := true, mustEnd := true,
          nativeLanguage := "en", learningLanguage := "en" })
      "Start your response with [CONTINUE] or [END]" = true := by decide

/-- Witness for C4 (amended) at a concrete bracket-free input. -/
theorem buildSystemPrompt_mustEnd_no_marker_block_witness :
    containsSubstr
      (buildSystemPrompt
        { characterName := "Marco", role := "waiter", location := "Restaurant",
          difficulty := DifficultyLevel.intermediate, topic := none, turnCount := 4,
          canEnd := true, mustEnd := true,
          nativeLanguage := "en", learningLanguage := "it" })
      "Start your response with [CONTINUE] or [END]" = false :=
  buildSystemPrompt_mustEnd_no_marker_block _ rfl (by decide) (by decide) (by decide)
    (by decide) (by decide)
